import Mathlib

/-!
Verification development for the multi-platform bestseller/keyword scraper.

Shallow embedding of the collection pipeline:
* `src/run_scrapers.py` — orchestrator (`run_all_scrapers`);
* `src/scrapers/base.py` — fetch/retry contract (`fetch` with tenacity
  `stop_after_attempt(MAX_RETRIES)` / `wait_exponential(multiplier=1, min=2, max=30)`),
  run logging (`run`, `log_scrape`);
* `src/scrapers/musinsa.py`, `twentynine_cm.py`, `wconcept.py`, `zigzag.py`,
  `ably.py` — the five platform adapters (record parsing, URL deduplication,
  rank renumbering);
* `src/pages/06_analysis.py` — `normalize_category`.

Machine integers are modelled as `Int`/`Nat` (no overflow is relevant here),
Python floats that only ever hold exact ratios of integers as `ℚ`, Python
`None`-able values as `Option`, Python exceptions as `Except String`.
-/

/-- Canonical product record, the dict shape produced by every adapter's
`_parse_*` function (keys `rank`, `product_name`, `brand`, `price`,
`original_price`, `discount_pct`, `category`, `product_url`, `image_url`). -/
structure Item where
  rank : Nat
  productName : String
  brand : String
  price : Option Int
  originalPrice : Option Int
  discountPct : Option Int
  category : String
  productUrl : String
  imageUrl : String
deriving Repr, DecidableEq

/-- Keyword record (keys `keyword`, `rank`, `category`). -/
structure Keyword where
  keyword : String
  rank : Nat
  category : String
deriving Repr, DecidableEq

/-- Python truthiness of an optional integer: `None` and `0` are falsy. -/
def pyTruthyInt : Option Int → Bool
  | none => false
  | some v => v != 0

/-- Python `a or b` on optional integers (falls through on `None`/`0`). -/
def pyOrInt (a b : Option Int) : Option Int :=
  if pyTruthyInt a then a else b

/-- Python `a or b` on strings (falls through on the empty string). -/
def pyOrStr (a b : String) : String :=
  if a ≠ "" then a else b

/-- Python 3 `round` to an integer: round half to even (banker's rounding). -/
def pyRound (q : ℚ) : ℤ :=
  let f : ℤ := ⌊q⌋
  let r : ℚ := q - f
  if r < 1 / 2 then f
  else if 1 / 2 < r then f + 1
  else if f % 2 = 0 then f else f + 1

/-- Python `str.strip()`: drop leading and trailing whitespace (structural
character-list implementation). -/
def pyStrip (s : String) : String :=
  ⟨((s.data.dropWhile Char.isWhitespace).reverse.dropWhile
      Char.isWhitespace).reverse⟩

/-- Python `str.replace(a, b)` for single-character patterns. -/
def charReplace (a b : Char) (s : String) : String :=
  ⟨s.data.map fun c => if c == a then b else c⟩

/-- Python `str.split(sep)` for a single-character separator, on character
lists: `"".split(sep) == [""]` and separators delimit (possibly empty)
segments. -/
def splitCharAux (sep : Char) : List Char → List (List Char)
  | [] => [[]]
  | c :: rest =>
    let r := splitCharAux sep rest
    if c == sep then [] :: r
    else
      match r with
      | [] => [[c]]
      | h :: t => (c :: h) :: t

/-- Python `str.split(sep)` for a single-character separator. -/
def splitChar (sep : Char) (s : String) : List String :=
  (splitCharAux sep s.data).map fun l => ⟨l⟩

/-- Final re-ranking loop shared by the Musinsa, 29CM and W Concept adapters:
`for i, item in enumerate(all_items, start=1): item["rank"] = i`,
modelled as assigning rank `n`, `n+1`, … positionally. -/
def renumberFrom (n : Nat) : List Item → List Item
  | [] => []
  | it :: rest => { it with rank := n } :: renumberFrom (n + 1) rest

/-- Re-numbering starting from rank 1 (`enumerate(all_items, start=1)`). -/
def renumberRanks (items : List Item) : List Item :=
  renumberFrom 1 items

/-- Musinsa `scrape_bestsellers` dedup loop (src/scrapers/musinsa.py:155-161):
```
url = item.get("product_url", "")
if url and url in seen_urls: continue
if url: seen_urls.add(url)
all_items.append(item)
```
An item with an empty URL is always appended; a non-empty URL is appended
only on first sight. -/
def musinsaDedupAux (seen : List String) : List Item → List Item
  | [] => []
  | it :: rest =>
    if it.productUrl = "" then it :: musinsaDedupAux seen rest
    else if seen.contains it.productUrl then musinsaDedupAux seen rest
    else it :: musinsaDedupAux (it.productUrl :: seen) rest

/-- Musinsa dedup over the concatenated fan-out query results, with the
`seen_urls` set initially empty. -/
def musinsaDedup (items : List Item) : List Item :=
  musinsaDedupAux [] items

/-- Record loop shared by the Musinsa `_fetch_category_bestsellers` and
Zigzag `scrape_bestsellers` inner loops: the rank counter is incremented for
every raw record, the parse is attempted inside `try/except`, a raised
exception (`Except.error`) or a `None` parse result skips the record, a
parsed item is appended. `parse` abstracts the adapter's `_parse_*` method. -/
def parseRecords (parse : α → Nat → Except String (Option Item)) :
    Nat → List α → List Item
  | _, [] => []
  | rank, r :: rest =>
    match parse r (rank + 1) with
    | Except.ok (some item) => item :: parseRecords parse (rank + 1) rest
    | Except.ok none => parseRecords parse (rank + 1) rest
    | Except.error _ => parseRecords parse (rank + 1) rest

/-- Record loop of the 29CM `scrape_bestsellers` and W Concept
`_ingest_content` loops: rank counter incremented per raw record, parse
attempted inside `try/except` (an exception skips only that record), and a
parsed item appended only when its product URL is non-empty and unseen:
```
rank += 1
try:
    item = self._parse_product(entry, rank)
    if item:
        url = item.get("product_url", "")
        if url and url not in seen_urls:
            seen_urls.add(url); all_items.append(item)
except Exception: ...
``` -/
def ingestRecords (parse : α → Nat → Except String (Option Item)) :
    Nat → List String → List α → List Item
  | _, _, [] => []
  | rank, seen, r :: rest =>
    match parse r (rank + 1) with
    | Except.ok (some item) =>
      if item.productUrl = "" then ingestRecords parse (rank + 1) seen rest
      else if seen.contains item.productUrl then
        ingestRecords parse (rank + 1) seen rest
      else item :: ingestRecords parse (rank + 1) (item.productUrl :: seen) rest
    | Except.ok none => ingestRecords parse (rank + 1) seen rest
    | Except.error _ => ingestRecords parse (rank + 1) seen rest

/-- Musinsa `scrape_bestsellers`: fan-out query results (one parsed item list
per section × category combination) are concatenated in fixed enumeration
order through the shared `seen_urls` dedup, then re-numbered 1..N. -/
def musinsaCombine (queries : List (List Item)) : List Item :=
  renumberRanks (musinsaDedup queries.flatten)

/-- 29CM `scrape_bestsellers`: main-category pages then subcategory pages flow
through one `seen_urls`/rank-counter ingest loop, then are re-numbered 1..N. -/
def twentynineCombine (parse : α → Nat → Except String (Option Item))
    (pages : List (List α)) : List Item :=
  renumberRanks (ingestRecords parse 0 [] pages.flatten)

/-- W Concept `scrape_bestsellers`: date-type queries then subcategory queries
flow through `_ingest_content` with one shared `seen_urls`/rank counter, then
are re-numbered 1..N. -/
def wconceptCombine (parse : α → Nat → Except String (Option Item))
    (queries : List (List α)) : List Item :=
  renumberRanks (ingestRecords parse 0 [] queries.flatten)

/-- Outcome recorded per platform by the orchestrator
(src/run_scrapers.py:49-58). -/
inductive RunOutcome where
  | success (items : Nat)
  | failed (error : String)
deriving Repr, DecidableEq

/-- Orchestrator `run_all_scrapers` (src/run_scrapers.py:49-58): each
registered scraper is attempted in order; `scraper.run()` either returns an
item count (`Except.ok`) or raises with message `str(e)` (`Except.error`),
and the result map gets `{"status": "success", "items": count}` or
`{"status": "failed", "error": str(e)}` accordingly. The registered
scrapers carry distinct `platform_name`s, so the Python dict is modelled as
an association list in registration order. -/
def run_all_scrapers (scrapers : List (String × Except String Nat)) :
    List (String × RunOutcome) :=
  scrapers.map fun s =>
    (s.1, match s.2 with
          | Except.ok count => RunOutcome.success count
          | Except.error e => RunOutcome.failed e)

/-- The `status=failed` entries of an orchestrator result, paired with their
recorded error message. -/
def failedEntries (results : List (String × RunOutcome)) :
    List (String × String) :=
  results.filterMap fun r =>
    match r.2 with
    | RunOutcome.failed e => some (r.1, e)
    | RunOutcome.success _ => none

/-- `MAX_RETRIES` (src/config.py:16). -/
def MAX_RETRIES : Nat := 3

/-- tenacity `wait_exponential(multiplier=1, min=2, max=30)` as configured on
`BaseScraper.fetch` (src/scrapers/base.py:59-62): after failed attempt `n`
the sleep is `max(max(0, min), min(multiplier * exp_base ** n, max))`
with `multiplier = 1`, `exp_base = 2`, `min = 2`, `max = 30`. -/
def waitExponential (attemptNumber : Nat) : ℚ :=
  max (max 0 2) (min (1 * 2 ^ attemptNumber) 30)

/-- One network attempt of `BaseScraper.fetch`: either a transport-level
exception from `client.get` or a response with an HTTP status code. -/
inductive FetchAttempt where
  | transportError (msg : String)
  | response (status : Nat)
deriving Repr, DecidableEq

/-- An attempt fails when the transport raises or `raise_for_status` raises
on a non-2xx response (src/scrapers/base.py:65-66). -/
def attemptFails : FetchAttempt → Bool
  | FetchAttempt.transportError _ => true
  | FetchAttempt.response status => !(200 ≤ status && status < 300)

/-- tenacity retry loop around `fetch` (src/scrapers/base.py:59-67):
`att n` is the outcome of the `n`-th attempt (1-based). On failure with
`attempt_number < MAX_RETRIES` (`stop_after_attempt`) the loop sleeps
`waitExponential attempt_number` and retries; once `MAX_RETRIES` attempts
have failed it raises a terminal `RetryError`. Returns (number of attempts
made, backoff delays slept, final result). The fuel argument equals the
remaining allowed attempts and is never exhausted early. -/
def fetchRetryAux (att : Nat → FetchAttempt) (n : Nat) :
    Nat → Nat × List ℚ × Except String FetchAttempt
  | 0 => (n, [], Except.error "RetryError")
  | fuel + 1 =>
    if attemptFails (att n) then
      if MAX_RETRIES ≤ n then (n, [], Except.error "RetryError")
      else
        let next := fetchRetryAux att (n + 1) fuel
        (next.1, waitExponential n :: next.2.1, next.2.2)
    else (n, [], Except.ok (att n))

/-- `BaseScraper.fetch` under the retry decorator: attempts start at 1. -/
def fetch (att : Nat → FetchAttempt) : Nat × List ℚ × Except String FetchAttempt :=
  fetchRetryAux att 1 MAX_RETRIES

/-- One `scrape_log` row (src/database/db.py:76-84); `scraped_at` defaults
server-side and is not set by the pipeline. -/
structure LogRow where
  platform : String
  status : String
  itemsCollected : Nat
  errorMessage : String
  durationSeconds : ℚ
deriving Repr, DecidableEq

/-- `BaseScraper.log_scrape` (src/scrapers/base.py:123-131): a single
`INSERT INTO scrape_log` — the store is append-only for the pipeline. -/
def log_scrape (db : List LogRow) (platform status : String)
    (itemsCollected : Nat) (errorMessage : String) (duration : ℚ) : List LogRow :=
  db ++ [⟨platform, status, itemsCollected, errorMessage, duration⟩]

/-- `BaseScraper.run` (src/scrapers/base.py:133-150), restricted to its
`scrape_log` effect: when `scrape()` returns `items` it logs
`("success", items, duration)`; when `scrape()` raises `e` it logs
`("failed", 0, str(e), duration)` and re-raises. `outcome` is the result of
`self.scrape()` and `duration` the measured wall time. -/
def scraperRun (db : List LogRow) (platform : String)
    (outcome : Except String Nat) (duration : ℚ) :
    List LogRow × Except String Nat :=
  match outcome with
  | Except.ok items =>
    (log_scrape db platform "success" items "" duration, Except.ok items)
  | Except.error e =>
    (log_scrape db platform "failed" 0 e duration, Except.error e)

/-- The orchestrator's `scrape_log` effect over a whole run: each adapter
invocation appends its one row via `scraperRun`; the orchestrator itself
never writes to or rewrites `scrape_log`. -/
def runAllLog (db : List LogRow)
    (invocations : List (String × Except String Nat × ℚ)) : List LogRow :=
  invocations.foldl (fun d inv => (scraperRun d inv.1 inv.2.1 inv.2.2).1) db

/-- One entry of Zigzag's `managed_category_list` (only the fields the code
reads: `value`, `key`, `depth`, with `depth` defaulted to 0). -/
structure ZigzagCat where
  value : String
  key : String
  depth : Int
deriving Repr, DecidableEq

/-- Stable insertion into a depth-descending list: the new element is placed
before the first element of smaller-or-equal depth. Combined with `foldr`
below this reproduces Python's stable `sorted(key=depth, reverse=True)`
(equal depths keep their original relative order). -/
def insertDepthDesc (c : ZigzagCat) : List ZigzagCat → List ZigzagCat
  | [] => [c]
  | x :: xs => if x.depth ≤ c.depth then c :: x :: xs else x :: insertDepthDesc c xs

/-- `sorted(managed_categories, key=lambda c: c.get("depth", 0), reverse=True)`
(src/scrapers/zigzag.py:120-122). -/
def sortByDepthDesc (l : List ZigzagCat) : List ZigzagCat :=
  l.foldr insertDepthDesc []

/-- `CATEGORY_MAP` from src/config.py:59-69 (Korean → normalized English),
in insertion order. -/
def CATEGORY_MAP_CONFIG : List (String × String) :=
  [("아우터", "outer"), ("상의", "top"), ("바지", "bottom"), ("원피스", "dress"),
   ("스커트", "skirt"), ("가방", "bag"), ("신발", "shoes"),
   ("악세서리", "accessory"), ("주얼리", "jewelry")]

/-- `CATEGORY_MAP.get(value, "")` on the config table. -/
def zigzagLookupConfig (v : String) : String :=
  ((CATEGORY_MAP_CONFIG.find? fun kv => kv.1 == v).map (·.2)).getD ""

/-- `ZigzagScraper._pick_category` (src/scrapers/zigzag.py:110-135): sort by
depth descending (stable), skip depths ≤ 1, return the mapped value of the
first remaining entry (or its raw value if unmapped); if every entry has
depth ≤ 1, fall back to the deepest entry's raw value. -/
def zigzagPickCategory (managedCategories : List ZigzagCat) : String :=
  match managedCategories with
  | [] => ""
  | _ =>
    let sortedCats := sortByDepthDesc managedCategories
    match sortedCats.findSome? (fun cat =>
        if cat.depth ≤ 1 then none
        else
          let normalised := zigzagLookupConfig cat.value
          if normalised ≠ "" then some normalised else some cat.value) with
    | some v => v
    | none =>
      match sortedCats with
      | [] => ""
      | c :: _ => c.value

/-- One raw `UxGoodsCardItem` as read by `ZigzagScraper._parse_item`
(absent string fields default to `""`, absent numbers to `none`). -/
structure ZigzagRaw where
  title : String
  finalPrice : Option Int
  maxPrice : Option Int
  discountRate : Option Int
  productUrl : String
  webpImageUrl : String
  imageUrl : String
  shopName : String
  managedCategoryList : List ZigzagCat
deriving Repr, DecidableEq

/-- `ZigzagScraper._parse_item` (src/scrapers/zigzag.py:137-169):
`original_price = max_price if max_price and max_price != final_price else None`;
if `discount_rate` is falsy and both prices are present and positive, it is
back-filled as `round((1 - final_price / original_price) * 100)`. -/
def zigzag_parse_item (raw : ZigzagRaw) (rank : Nat) : Option Item :=
  if raw.title = "" then none
  else
    let originalPrice : Option Int :=
      if pyTruthyInt raw.maxPrice ∧ raw.maxPrice ≠ raw.finalPrice then raw.maxPrice
      else none
    let discountRate : Option Int :=
      if ¬ pyTruthyInt raw.discountRate ∧ pyTruthyInt originalPrice ∧
          pyTruthyInt raw.finalPrice ∧ 0 < originalPrice.getD 0 then
        some (pyRound ((1 - (raw.finalPrice.getD 0 : ℚ) / (originalPrice.getD 0 : ℚ)) * 100))
      else raw.discountRate
    some {
      rank := rank
      productName := pyStrip raw.title
      brand := pyStrip raw.shopName
      price := raw.finalPrice
      originalPrice := originalPrice
      discountPct := if pyTruthyInt discountRate then discountRate else none
      category := zigzagPickCategory raw.managedCategoryList
      productUrl := raw.productUrl
      imageUrl := pyOrStr raw.webpImageUrl raw.imageUrl }

/-- `WCONCEPT["base_url"]` (src/config.py:38). -/
def WCONCEPT_BASE_URL : String := "https://www.wconcept.co.kr"

/-- One W Concept product entry as read by `WConceptScraper._parse_product`. -/
structure WEntry where
  itemName : String
  brandNameEn : String
  brandNameKr : String
  finalPrice : Option Int
  customerPrice : Option Int
  finalDiscountRate : Option Int
  itemCd : String
  productImageUrl : String
  categoryDepthName1 : String
  categoryDepthName2 : String
  categoryDepthName3 : String
deriving Repr, DecidableEq

/-- `WConceptScraper._parse_product` (src/scrapers/wconcept.py:205-240):
prices pass through unchanged (`int(x) if x is not None else None`) and
`discount_pct` is `finalDiscountRate` when truthy, else `None` — there is
no back-fill from the two prices. -/
def wconcept_parse_product (entry : WEntry) (rank : Nat) : Option Item :=
  if entry.itemName = "" then none
  else
    let brand := pyOrStr entry.brandNameEn entry.brandNameKr
    let categoryParts :=
      [entry.categoryDepthName1, entry.categoryDepthName2,
       entry.categoryDepthName3].filter (fun v => v ≠ "")
    some {
      rank := rank
      productName := pyStrip entry.itemName
      brand := pyStrip brand
      price := entry.finalPrice
      originalPrice := entry.customerPrice
      discountPct := if pyTruthyInt entry.finalDiscountRate then entry.finalDiscountRate else none
      category := String.intercalate " > " categoryParts
      productUrl := if entry.itemCd ≠ "" then WCONCEPT_BASE_URL ++ "/Product/" ++ entry.itemCd else ""
      imageUrl := entry.productImageUrl }

/-- `saleInfoV2` sub-dict of a 29CM entry (present and non-empty iff `some`). -/
structure TSaleInfo where
  consumerPrice : Option Int
  totalSellPrice : Option Int
  sellPrice : Option Int
  totalSaleRate : Option Int
  saleRate : Option Int
deriving Repr, DecidableEq

/-- One `frontCategoryInfo` entry of a 29CM product. -/
structure TCat where
  category2Name : String
  category3Name : String
deriving Repr, DecidableEq

/-- One 29CM product entry as read by `TwentynineCmScraper._parse_product`. -/
structure TEntry where
  itemName : String
  frontBrandNameKor : String
  frontBrandNameEng : String
  saleInfoV2 : Option TSaleInfo
  consumerPrice : Option Int
  lastSalePrice : Option Int
  lastSalePercent : Option Int
  itemNo : Option Int
  imageUrl : String
  frontCategoryInfo : List TCat
deriving Repr, DecidableEq

/-- `TwentynineCmScraper._parse_product` (src/scrapers/twentynine_cm.py:187-237):
prices and discount come from `saleInfoV2` (with `or`-fallbacks) or the
top-level fields; `discount_pct` is the provided rate when truthy, else
`None` — there is no back-fill from the two prices. -/
def twentynine_parse_product (entry : TEntry) (rank : Nat) : Option Item :=
  if entry.itemName = "" then none
  else
    let brand :=
      if entry.frontBrandNameKor ≠ "" then entry.frontBrandNameKor
      else entry.frontBrandNameEng
    let prices :=
      match entry.saleInfoV2 with
      | some si =>
        (si.consumerPrice, pyOrInt si.totalSellPrice si.sellPrice,
         pyOrInt si.totalSaleRate si.saleRate)
      | none => (entry.consumerPrice, entry.lastSalePrice, entry.lastSalePercent)
    let category :=
      match entry.frontCategoryInfo with
      | [] => ""
      | cat :: _ =>
        if cat.category3Name ≠ "" then
          cat.category2Name ++ " > " ++ cat.category3Name
        else cat.category2Name
    some {
      rank := rank
      productName := pyStrip entry.itemName
      brand := pyStrip brand
      price := prices.2.1
      originalPrice := prices.1
      discountPct := if pyTruthyInt prices.2.2 then prices.2.2 else none
      category := category
      productUrl :=
        if pyTruthyInt entry.itemNo then
          "https://www.29cm.co.kr/product/" ++ toString (entry.itemNo.getD 0)
        else ""
      imageUrl :=
        if entry.imageUrl ≠ "" ∧ ¬ entry.imageUrl.startsWith "http" then
          "https://img.29cm.co.kr" ++ entry.imageUrl
        else entry.imageUrl }

/-- `info` sub-dict of a Musinsa `PRODUCT_COLUMN` entry
(`discountRatio` defaults to 0). -/
structure MInfo where
  productName : String
  brandName : String
  finalPrice : Option Int
  discountRatio : Int
deriving Repr, DecidableEq

/-- One Musinsa `PRODUCT_COLUMN` entry as read by
`MusinsaScraper._parse_product` (`info` is `none` when missing or empty). -/
structure MEntry where
  info : Option MInfo
  onClickUrl : String
  id : String
  imageUrl : String
deriving Repr, DecidableEq

/-- `MUSINSA["base_url"]` (src/config.py:21). -/
def MUSINSA_BASE_URL : String := "https://www.musinsa.com"

/-- `MusinsaScraper._parse_product` (src/scrapers/musinsa.py:183-226): the
original price is derived from the provided `discountRatio`
(`round(final_price / (1 - discount_ratio / 100))`, a `ZeroDivisionError`
when the ratio is 100), and `discount_pct` is the provided ratio when
non-zero, else `None` — the discount is never computed from two prices. -/
def musinsa_parse_product (entry : MEntry) (rank : Nat) :
    Except String (Option Item) :=
  match entry.info with
  | none => Except.ok none
  | some info =>
    if info.productName = "" then Except.ok none
    else if info.discountRatio ≠ 0 ∧ pyTruthyInt info.finalPrice ∧
        info.discountRatio = 100 then
      Except.error "division by zero"
    else
      let originalPrice : Option Int :=
        if info.discountRatio ≠ 0 ∧ pyTruthyInt info.finalPrice then
          some (pyRound ((info.finalPrice.getD 0 : ℚ) /
            (1 - (info.discountRatio : ℚ) / 100)))
        else none
      Except.ok (some {
        rank := rank
        productName := pyStrip info.productName
        brand := pyStrip info.brandName
        price := info.finalPrice
        originalPrice := originalPrice
        discountPct := if info.discountRatio ≠ 0 then some info.discountRatio else none
        category := ""
        productUrl :=
          if entry.onClickUrl ≠ "" then entry.onClickUrl
          else if entry.id ≠ "" then MUSINSA_BASE_URL ++ "/app/goods/" ++ entry.id
          else ""
        imageUrl :=
          if entry.imageUrl ≠ "" ∧ entry.imageUrl.startsWith "//" then
            "https:" ++ entry.imageUrl
          else entry.imageUrl })

/-- The subset of an Ably product's `first_page_rendering` dict that
`_parse_api_responses` reads. -/
structure AblyFpr where
  price : Option Int
  originalPrice : Option Int
  discountRate : Option Int
  marketName : String
  coverImage : String
deriving Repr, DecidableEq

/-- The `price` field of an Ably product: absent, a plain integer, or the
dict form. In the dict form the code reads `sale_price or price` and
`origin_price or original_price`; those two-key `or`-chains are collapsed
here into the two resulting values. -/
inductive AblyPriceField where
  | missing
  | plain (v : Int)
  | nested (salePrice : Option Int) (originPrice : Option Int)
deriving Repr, DecidableEq

/-- One goods dict extracted by `_extract_goods_from_screens`. The pairwise
key fallbacks `sno or goods_sno`, `name or goods_name`,
`image or image_url` are collapsed into single fields. -/
structure AblyGoods where
  sno : String
  name : String
  price : AblyPriceField
  fpr : AblyFpr
  discountRate : Option Int
  marketName : String
  image : String
  categoryName : String
deriving Repr, DecidableEq

/-- Sale/original price extraction of `AblyScraper._parse_api_responses`
(src/scrapers/ably.py:208-215): the dict form wins outright; a plain price
falls back to `first_page_rendering` on falsiness. -/
def ablySaleOrigin (g : AblyGoods) : Option Int × Option Int :=
  match g.price with
  | AblyPriceField.nested salePrice originPrice => (salePrice, originPrice)
  | AblyPriceField.plain v => (pyOrInt (some v) g.fpr.price, g.fpr.originalPrice)
  | AblyPriceField.missing => (g.fpr.price, g.fpr.originalPrice)

/-- Item loop of `AblyScraper._parse_api_responses`
(src/scrapers/ably.py:190-248): skip nameless goods, dedup by
`sno or name`, increment rank per kept product, back-fill the discount as
`round((1 - sale_price / original_price) * 100)` when it is falsy and both
prices are present with `original_price > sale_price`. -/
def ablyParseApiAux (baseUrl : String) (seen : List String) (rank : Nat) :
    List AblyGoods → List Item
  | [] => []
  | g :: rest =>
    if g.name = "" then ablyParseApiAux baseUrl seen rank rest
    else
      let productId := pyOrStr g.sno g.name
      if seen.contains productId then ablyParseApiAux baseUrl seen rank rest
      else
        let prices := ablySaleOrigin g
        let salePrice := prices.1
        let originalPrice := prices.2
        let discount0 := pyOrInt g.discountRate g.fpr.discountRate
        let discount : Option Int :=
          if ¬ pyTruthyInt discount0 ∧ pyTruthyInt originalPrice ∧
              pyTruthyInt salePrice ∧ salePrice.getD 0 < originalPrice.getD 0 then
            some (pyRound ((1 - (salePrice.getD 0 : ℚ) / (originalPrice.getD 0 : ℚ)) * 100))
          else discount0
        let brand := pyOrStr g.marketName g.fpr.marketName
        { rank := rank + 1
          productName := pyStrip g.name
          brand := pyStrip brand
          price := if pyTruthyInt salePrice then salePrice else none
          originalPrice := if pyTruthyInt originalPrice then originalPrice else none
          discountPct := if pyTruthyInt discount then discount else none
          category := g.categoryName
          productUrl := if g.sno ≠ "" then baseUrl ++ "/goods/" ++ g.sno else ""
          imageUrl := pyOrStr g.image g.fpr.coverImage } ::
          ablyParseApiAux baseUrl (productId :: seen) (rank + 1) rest

/-- `AblyScraper._parse_api_responses` over all captured responses: each
inner list is `_extract_goods_from_screens` of one captured payload, and the
`seen` set and rank counter are shared across responses. -/
def ablyParseApiResponses (baseUrl : String) (captures : List (List AblyGoods)) :
    List Item :=
  ablyParseApiAux baseUrl [] 0 captures.flatten

/-- `AblyScraper._collect_via_playwright` (src/scrapers/ably.py:72-135):
when Playwright cannot be imported the function returns `[]`; otherwise it
parses the intercepted API responses and, when those yield nothing, falls
back to the DOM parse (`domItems` is the `_parse_dom` result, itself `[]`
when no product elements are found). -/
def ablyCollectViaPlaywright (baseUrl : String) (playwrightAvailable : Bool)
    (captures : List (List AblyGoods)) (domItems : List Item) : List Item :=
  if playwrightAvailable = false then []
  else
    let items := ablyParseApiResponses baseUrl captures
    if items ≠ [] then items else domItems

/-- One keyword candidate from a captured Ably search API response: the
seven-key `or`-chain selecting the text and the three-key chain selecting
the category (src/scrapers/ably.py:479-499) are collapsed into their
resulting values (a plain-string candidate has category `""`). -/
structure AblyKwRaw where
  text : String
  category : String
deriving Repr, DecidableEq

/-- Keyword loop of `AblyScraper._parse_keyword_api`
(src/scrapers/ably.py:465-513): strip, skip empty and already-seen texts,
rank sequentially. -/
def ablyParseKeywordAux (seen : List String) (rank : Nat) :
    List AblyKwRaw → List Keyword
  | [] => []
  | k :: rest =>
    let text := pyStrip k.text
    if text = "" ∨ seen.contains text then ablyParseKeywordAux seen rank rest
    else
      { keyword := text, rank := rank + 1, category := k.category } ::
        ablyParseKeywordAux (text :: seen) (rank + 1) rest

/-- `AblyScraper._parse_keyword_api` over all captured responses. -/
def ablyParseKeywordApi (captures : List (List AblyKwRaw)) : List Keyword :=
  ablyParseKeywordAux [] 0 captures.flatten

/-- `AblyScraper._collect_keywords_via_playwright`
(src/scrapers/ably.py:383-463): `[]` when Playwright cannot be imported;
otherwise API-captured keywords, falling back to the DOM parse result
(`domKeywords`, itself `[]` when nothing matches) when the API yields none. -/
def ablyCollectKeywords (playwrightAvailable : Bool)
    (captures : List (List AblyKwRaw)) (domKeywords : List Keyword) :
    List Keyword :=
  if playwrightAvailable = false then []
  else
    let kws := ablyParseKeywordApi captures
    if kws ≠ [] then kws else domKeywords

/-- `AblyScraper.scrape` (src/scrapers/ably.py:632-654): collect bestsellers,
then collect keywords, each saved when non-empty; the returned total counts
both. The two collections read disjoint inputs. -/
def ablyScrape (baseUrl : String) (playwrightAvailable : Bool)
    (bsCaptures : List (List AblyGoods)) (bsDom : List Item)
    (kwCaptures : List (List AblyKwRaw)) (kwDom : List Keyword) :
    Nat × List Item × List Keyword :=
  let bestsellers := ablyCollectViaPlaywright baseUrl playwrightAvailable bsCaptures bsDom
  let keywords := ablyCollectKeywords playwrightAvailable kwCaptures kwDom
  (bestsellers.length + keywords.length, bestsellers, keywords)

/-- `needle` matches at the head of the haystack (character-wise). -/
def leadMatch : List Char → List Char → Bool
  | [], _ => true
  | _ :: _, [] => false
  | c :: cs, d :: ds => c == d && leadMatch cs ds

/-- Python's substring test `needle in hay` on character lists: the empty
needle is contained in everything. -/
def hasSub (needle : List Char) : List Char → Bool
  | [] => leadMatch needle []
  | c :: cs => leadMatch needle (c :: cs) || hasSub needle cs

/-- Python `needle in hay` on strings. -/
def pyInStr (needle hay : String) : Bool :=
  hasSub needle.data hay.data

/-- `_CATEGORY_MAP` from src/pages/06_analysis.py:37-56, in insertion order. -/
def CATEGORY_MAP_ANALYSIS : List (String × String) :=
  [("아우터", "아우터"), ("재킷", "아우터"), ("자켓", "아우터"), ("코트", "아우터"),
   ("패딩", "아우터"), ("점퍼", "아우터"), ("블루종", "아우터"), ("후드 집업", "아우터"),
   ("레더 재킷", "아우터"), ("가죽/스웨이드재킷", "아우터"),
   ("상의", "상의"), ("티셔츠", "상의"), ("블라우스", "상의"), ("셔츠", "상의"),
   ("니트", "상의"), ("니트웨어", "상의"), ("맨투맨", "상의"), ("후드", "상의"),
   ("긴소매티셔츠", "상의"), ("반소매티셔츠", "상의"), ("슬리브리스", "상의"),
   ("카디건", "상의"), ("풀오버", "상의"), ("브이넥", "상의"), ("크루넥", "상의"),
   ("바지", "하의"), ("팬츠", "하의"), ("데님", "하의"), ("와이드팬츠", "하의"),
   ("조거", "하의"), ("슬랙스", "하의"), ("트레이닝", "하의"), ("레깅스", "하의"),
   ("원피스", "원피스"), ("스커트", "원피스/스커트"),
   ("가방", "가방"), ("숄더백", "가방"), ("토트백", "가방"), ("크로스백", "가방"),
   ("백팩", "가방"), ("클러치", "가방"),
   ("신발", "신발"), ("스니커즈", "신발"), ("부츠", "신발"), ("샌들", "신발"),
   ("슬리퍼", "신발"), ("플랫", "신발"), ("힐", "신발"), ("로퍼", "신발"),
   ("점프수트", "셋업/점프수트"), ("셋업", "셋업/점프수트"),
   ("언더웨어", "속옷/홈웨어"), ("홈웨어", "속옷/홈웨어"),
   ("액세서리", "액세서리"), ("주얼리", "액세서리"), ("모자", "액세서리"),
   ("스카프", "액세서리"), ("벨트", "액세서리")]

/-- Exact dict lookup `_CATEGORY_MAP[part]` / `part in _CATEGORY_MAP`. -/
def lookupAnalysis (part : String) : Option String :=
  (CATEGORY_MAP_ANALYSIS.find? fun kv => kv.1 == part).map (·.2)

/-- The segments of a raw category string: `>` replaced by `/`, split on
`/`, each segment stripped (src/pages/06_analysis.py:62); implemented with
the structural string helpers above. -/
def segmentsOf (raw : String) : List String :=
  (splitChar '/' (charReplace '>' '/' raw)).map pyStrip

/-- First pass of `normalize_category`: exact table membership, testing
segments from last (most specific) to first. -/
def exactPass (parts : List String) : Option String :=
  parts.reverse.findSome? lookupAnalysis

/-- Second pass of `normalize_category`: bidirectional substring containment
(`key in part or part in key`) against the table in insertion order, testing
segments from last to first. -/
def containPass (parts : List String) : Option String :=
  parts.reverse.findSome? fun part =>
    CATEGORY_MAP_ANALYSIS.findSome? fun kv =>
      if pyInStr kv.1 part || pyInStr part kv.1 then some kv.2 else none

/-- `normalize_category` (src/pages/06_analysis.py:59-70): blank input maps
to the catch-all bucket `"기타"`; otherwise the exact pass, then the
containment pass, then the catch-all default. -/
def normalize_category (raw : String) : String :=
  if raw = "" ∨ pyStrip raw = "" then "기타"
  else
    match exactPass (segmentsOf raw) with
    | some b => b
    | none =>
      match containPass (segmentsOf raw) with
      | some b => b
      | none => "기타"

theorem renumberFrom_length (l : List Item) : ∀ n, (renumberFrom n l).length = l.length := by
  induction l with
  | nil => intro n; rfl
  | cons it rest ih => intro n; simp [renumberFrom, ih]

theorem renumberFrom_map_rank (l : List Item) :
    ∀ n, (renumberFrom n l).map (·.rank) = List.range' n l.length := by
  induction l with
  | nil => intro n; rfl
  | cons it rest ih =>
    intro n
    simp [renumberFrom, List.range'_succ, ih]

theorem renumberRanks_map_rank (l : List Item) :
    (renumberRanks l).map (·.rank) = List.range' 1 (renumberRanks l).length := by
  simp [renumberRanks, renumberFrom_map_rank, renumberFrom_length]

theorem parseRecords_append (parse : α → Nat → Except String (Option Item))
    (xs : List α) : ∀ (n : Nat) (ys : List α),
    parseRecords parse n (xs ++ ys) =
      parseRecords parse n xs ++ parseRecords parse (n + xs.length) ys := by
  induction xs with
  | nil => intro n ys; simp [parseRecords]
  | cons x xs ih =>
    intro n ys
    simp only [List.cons_append, parseRecords]
    cases parse x (n + 1) with
    | ok o =>
      cases o with
      | some item => simp [ih, Nat.add_assoc, Nat.add_comm 1 xs.length]
      | none => simp [ih, Nat.add_assoc, Nat.add_comm 1 xs.length]
    | error e => simp [ih, Nat.add_assoc, Nat.add_comm 1 xs.length]

theorem musinsaDedupAux_sublist (items : List Item) :
    ∀ seen, List.Sublist (musinsaDedupAux seen items) items := by
  induction items with
  | nil => intro seen; exact List.Sublist.refl []
  | cons it rest ih =>
    intro seen
    simp only [musinsaDedupAux]
    split
    · exact (ih seen).cons₂ it
    · split
      · exact (ih seen).cons it
      · exact (ih (it.productUrl :: seen)).cons₂ it

theorem musinsaDedupAux_count (u : String) (hu : u ≠ "") (items : List Item) :
    ∀ seen, ((musinsaDedupAux seen items).filter
        (fun it => it.productUrl == u)).length ≤
      (if seen.contains u then 0 else 1) := by
  induction items with
  | nil => intro seen; simp [musinsaDedupAux]
  | cons it rest ih =>
    intro seen
    simp only [musinsaDedupAux]
    split
    · rename_i hempty
      have hne : (it.productUrl == u) = false := by
        rw [hempty]; simpa using (Ne.symm hu)
      simpa [List.filter, hne] using ih seen
    · split
      · exact ih seen
      · rename_i hemp hcont
        by_cases hiu : it.productUrl = u
        · subst hiu
          have hseen : seen.contains it.productUrl = false := by
            simpa using hcont
          rw [if_neg (by simpa using hseen)]
          have := ih (it.productUrl :: seen)
          rw [if_pos (by simp)] at this
          simpa [List.filter] using this
        · have hne : (it.productUrl == u) = false := by simpa using hiu
          have := ih (it.productUrl :: seen)
          have hcons : (it.productUrl :: seen).contains u = seen.contains u := by
            simp [List.contains_cons, Ne.symm hiu]
          rw [hcons] at this
          simpa [List.filter, hne] using this

theorem musinsaDedupAux_first (u : String) (hu : u ≠ "") (items : List Item) :
    ∀ seen, seen.contains u = false →
    (musinsaDedupAux seen items).find? (fun it => it.productUrl == u) =
      items.find? (fun it => it.productUrl == u) := by
  induction items with
  | nil => intro seen _; rfl
  | cons it rest ih =>
    intro seen hseen
    simp only [musinsaDedupAux]
    split
    · rename_i hempty
      have hne : (it.productUrl == u) = false := by
        rw [hempty]; simpa using (Ne.symm hu)
      simp only [List.find?_cons, hne]
      exact ih seen hseen
    · split
      · rename_i hemp hcont
        have hiu : it.productUrl ≠ u := by
          intro h; rw [h] at hcont; rw [hseen] at hcont; exact Bool.noConfusion hcont
        have hne : (it.productUrl == u) = false := by simpa using hiu
        simp only [List.find?_cons, hne]
        exact ih seen hseen
      · by_cases hiu : it.productUrl = u
        · have hpe : (it.productUrl == u) = true := by simpa using hiu
          simp [List.find?_cons, hpe]
        · have hne : (it.productUrl == u) = false := by simpa using hiu
          simp only [List.find?_cons, hne]
          exact ih (it.productUrl :: seen)
            (by
              have hmem : u ∉ seen := by simpa using hseen
              simp [List.contains_cons, hmem, Ne.symm hiu])

theorem musinsaDedupAux_keeps_empty (items : List Item) :
    ∀ seen, (musinsaDedupAux seen items).filter (fun it => it.productUrl == "") =
      items.filter (fun it => it.productUrl == "") := by
  induction items with
  | nil => intro seen; rfl
  | cons it rest ih =>
    intro seen
    simp only [musinsaDedupAux]
    split
    · rename_i hempty
      have hpe : (it.productUrl == "") = true := by simpa using hempty
      simp [List.filter, hpe, ih seen]
    · rename_i hemp
      have hne : (it.productUrl == "") = false := by simpa using hemp
      split
      · simp [List.filter, hne, ih seen]
      · simp [List.filter, hne, ih (it.productUrl :: seen)]

theorem ingestRecords_count (parse : α → Nat → Except String (Option Item))
    (u : String) (hu : u ≠ "") (rs : List α) :
    ∀ (rank : Nat) (seen : List String),
    ((ingestRecords parse rank seen rs).filter
        (fun it => it.productUrl == u)).length ≤
      (if seen.contains u then 0 else 1) := by
  induction rs with
  | nil => intro rank seen; simp [ingestRecords]
  | cons r rest ih =>
    intro rank seen
    simp only [ingestRecords]
    cases parse r (rank + 1) with
    | error e => exact ih (rank + 1) seen
    | ok o =>
      cases o with
      | none => exact ih (rank + 1) seen
      | some item =>
        simp only
        split
        · exact ih (rank + 1) seen
        · split
          · exact ih (rank + 1) seen
          · rename_i hemp hcont
            by_cases hiu : item.productUrl = u
            · subst hiu
              have hseen : seen.contains item.productUrl = false := by
                simpa using hcont
              rw [if_neg (by simpa using hseen)]
              have := ih (rank + 1) (item.productUrl :: seen)
              rw [if_pos (by simp)] at this
              simpa [List.filter] using this
            · have hne : (item.productUrl == u) = false := by simpa using hiu
              have := ih (rank + 1) (item.productUrl :: seen)
              have hcons : (item.productUrl :: seen).contains u = seen.contains u := by
                simp [List.contains_cons, Ne.symm hiu]
              rw [hcons] at this
              simpa [List.filter, hne] using this

theorem ingestRecords_no_empty_url (parse : α → Nat → Except String (Option Item))
    (rs : List α) : ∀ (rank : Nat) (seen : List String),
    (ingestRecords parse rank seen rs).filter (fun it => it.productUrl == "") = [] := by
  induction rs with
  | nil => intro rank seen; rfl
  | cons r rest ih =>
    intro rank seen
    simp only [ingestRecords]
    cases parse r (rank + 1) with
    | error e => exact ih (rank + 1) seen
    | ok o =>
      cases o with
      | none => exact ih (rank + 1) seen
      | some item =>
        simp only
        split
        · exact ih (rank + 1) seen
        · split
          · exact ih (rank + 1) seen
          · rename_i hemp hcont
            have hne : (item.productUrl == "") = false := by simpa using hemp
            simp [List.filter, hne, ih (rank + 1) (item.productUrl :: seen)]

theorem run_all_success_entries (xs : List (String × Except String Nat))
    (h : ∀ p ∈ xs, ∃ c, p.2 = Except.ok c) :
    (∀ q ∈ run_all_scrapers xs, ∃ c, q.2 = RunOutcome.success c) ∧
    failedEntries (run_all_scrapers xs) = [] := by
  constructor
  · intro q hq
    rw [run_all_scrapers, List.mem_map] at hq
    obtain ⟨p, hp, rfl⟩ := hq
    obtain ⟨c, hc⟩ := h p hp
    exact ⟨c, by simp [hc]⟩
  · rw [failedEntries, List.filterMap_eq_nil_iff]
    intro q hq
    rw [run_all_scrapers, List.mem_map] at hq
    obtain ⟨p, hp, rfl⟩ := hq
    obtain ⟨c, hc⟩ := h p hp
    simp [hc]

/-- C1 counterexample: `run_all_scrapers` records `str(e)` verbatim as the
failed entry's error message, and Python exceptions may carry an empty
message (`str(ValueError()) == ""`). In a run whose only adapter raises an
exception with an empty message, the unique `status=failed` entry has an
EMPTY error message, refuting the claim's "whose error message is
non-empty". -/
theorem claim_C1_counterexample :
    failedEntries (run_all_scrapers [("musinsa", Except.error "")]) =
      [("musinsa", "")] := rfl

/-- C1 (amended): if one registered adapter raises an unhandled exception
with message `m` while every other registered adapter succeeds,
`run_all_scrapers` still returns a `status=success` outcome for every other
adapter and exactly one `status=failed` entry, for the raising adapter,
carrying exactly the exception's message `m` (non-empty whenever the
exception's message is non-empty). -/
theorem claim_C1 (xs ys : List (String × Except String Nat)) (n m : String)
    (hxs : ∀ p ∈ xs, ∃ c, p.2 = Except.ok c)
    (hys : ∀ p ∈ ys, ∃ c, p.2 = Except.ok c) :
    run_all_scrapers (xs ++ (n, Except.error m) :: ys) =
      run_all_scrapers xs ++ (n, RunOutcome.failed m) :: run_all_scrapers ys ∧
    (∀ q ∈ run_all_scrapers xs, ∃ c, q.2 = RunOutcome.success c) ∧
    (∀ q ∈ run_all_scrapers ys, ∃ c, q.2 = RunOutcome.success c) ∧
    failedEntries (run_all_scrapers (xs ++ (n, Except.error m) :: ys)) =
      [(n, m)] := by
  have hx := run_all_success_entries xs hxs
  have hy := run_all_success_entries ys hys
  have hsplit : run_all_scrapers (xs ++ (n, Except.error m) :: ys) =
      run_all_scrapers xs ++ (n, RunOutcome.failed m) :: run_all_scrapers ys := by
    simp [run_all_scrapers]
  refine ⟨hsplit, hx.1, hy.1, ?_⟩
  have h1 : failedEntries (run_all_scrapers xs) = [] := hx.2
  have h2 : failedEntries (run_all_scrapers ys) = [] := hy.2
  rw [failedEntries] at h1 h2 ⊢
  rw [hsplit, List.filterMap_append, h1, List.filterMap_cons]
  simpa using h2

/-- Witness for C1: a concrete three-adapter run where only the middle
adapter raises (message "boom"): the failed entries are exactly
`[("wconcept", "boom")]`. -/
theorem claim_C1_witness :
    failedEntries (run_all_scrapers ([("musinsa", Except.ok 5)] ++
      ("wconcept", Except.error "boom") :: [("zigzag", Except.ok 7)])) =
      [("wconcept", "boom")] :=
  (claim_C1 [("musinsa", Except.ok 5)] [("zigzag", Except.ok 7)]
    "wconcept" "boom"
    (by intro p hp; rw [List.mem_singleton] at hp; subst hp; exact ⟨5, rfl⟩)
    (by intro p hp; rw [List.mem_singleton] at hp; subst hp; exact ⟨7, rfl⟩)).2.2.2

/-- C2: a `fetch` whose every attempt fails (transport error or non-2xx
status) makes exactly `MAX_RETRIES = 3` attempts before raising the
terminal `RetryError`; the backoff delays slept between successive attempts
are `waitExponential 1, waitExponential 2`, where `waitExponential 1 = 2`
seconds, consecutive delays are non-decreasing, and every possible delay
lies in the `[2, 30]`-second band. -/
theorem claim_C2 (att : Nat → FetchAttempt)
    (h : ∀ n, attemptFails (att n) = true) :
    fetch att = (MAX_RETRIES, [waitExponential 1, waitExponential 2],
      Except.error "RetryError") ∧
    waitExponential 1 = 2 ∧
    (∀ n, waitExponential n ≤ waitExponential (n + 1)) ∧
    (∀ n, 2 ≤ waitExponential n ∧ waitExponential n ≤ 30) := by
  refine ⟨?_, ?_, ?_, ?_⟩
  · simp [fetch, MAX_RETRIES, fetchRetryAux, h]
  · norm_num [waitExponential]
  · intro n
    unfold waitExponential
    apply max_le_max (le_refl _)
    apply min_le_min _ (le_refl _)
    have h2 : (2:ℚ)^n ≤ 2^(n+1) := by
      apply pow_le_pow_right₀ (by norm_num) (Nat.le_succ n)
    simpa using h2
  · intro n
    constructor
    · unfold waitExponential
      calc (2:ℚ) = max 0 2 := by norm_num
        _ ≤ _ := le_max_left _ _
    · unfold waitExponential
      exact max_le (by norm_num) (min_le_right _ _)

/-- Witness for C2: the always-timing-out attempt stream makes exactly 3
attempts, sleeps the two exponential-backoff delays, and raises. -/
theorem claim_C2_witness :
    fetch (fun _ => FetchAttempt.transportError "timeout") =
      (MAX_RETRIES, [waitExponential 1, waitExponential 2],
        Except.error "RetryError") :=
  (claim_C2 (fun _ => FetchAttempt.transportError "timeout")
    (fun _ => rfl)).1

/-- Minimal parsed item with the given name and product URL (all other
fields empty), used for concrete dedup/parse-loop instances. -/
def scenarioItem (name url : String) : Item :=
  { rank := 0, productName := name, brand := "", price := none,
    originalPrice := none, discountPct := none, category := "",
    productUrl := url, imageUrl := "" }

/-- C3: URL-based deduplication preserves first-seen order. The Musinsa
fan-out dedup returns a subsequence of its input (order preserved), keeps
each non-empty URL at most once, and keeps exactly the first-seen item of
every non-empty URL (`find?` is unchanged); the 29CM / W Concept ingest
loop likewise keeps each non-empty URL at most once. In particular, three
overlapping queries with URLs {u1,u2}, {u2,u3}, {u3,u4} combine to exactly
4 products, ranked 1–4, in first-seen order u1,u2,u3,u4 (the kept u2/u3
items are the first-seen ones). -/
theorem claim_C3 :
    (∀ items : List Item, List.Sublist (musinsaDedup items) items) ∧
    (∀ (items : List Item) (u : String), u ≠ "" →
      ((musinsaDedup items).filter (fun it => it.productUrl == u)).length ≤ 1) ∧
    (∀ (items : List Item) (u : String), u ≠ "" →
      (musinsaDedup items).find? (fun it => it.productUrl == u) =
        items.find? (fun it => it.productUrl == u)) ∧
    (∀ (α : Type) (parse : α → Nat → Except String (Option Item))
        (rs : List α) (u : String), u ≠ "" →
      ((ingestRecords parse 0 [] rs).filter
          (fun it => it.productUrl == u)).length ≤ 1) ∧
    musinsaCombine
        [[scenarioItem "a1" "u1", scenarioItem "a2" "u2"],
         [scenarioItem "b2" "u2", scenarioItem "b3" "u3"],
         [scenarioItem "c3" "u3", scenarioItem "c4" "u4"]] =
      [{ scenarioItem "a1" "u1" with rank := 1 },
       { scenarioItem "a2" "u2" with rank := 2 },
       { scenarioItem "b3" "u3" with rank := 3 },
       { scenarioItem "c4" "u4" with rank := 4 }] := by
  refine ⟨?_, ?_, ?_, ?_, ?_⟩
  · intro items; exact musinsaDedupAux_sublist items []
  · intro items u hu
    simpa [musinsaDedup] using musinsaDedupAux_count u hu items []
  · intro items u hu
    exact musinsaDedupAux_first u hu items [] rfl
  · intro α parse rs u hu
    simpa using ingestRecords_count parse u hu rs 0 []
  · rfl

/-- Witness for C3: the dedup bounds and first-occurrence preservation
instantiated on a concrete one-item list with URL "u1". -/
theorem claim_C3_witness :
    ((musinsaDedup [scenarioItem "a1" "u1"]).filter
        (fun it => it.productUrl == "u1")).length ≤ 1 ∧
    (musinsaDedup [scenarioItem "a1" "u1"]).find?
        (fun it => it.productUrl == "u1") =
      [scenarioItem "a1" "u1"].find? (fun it => it.productUrl == "u1") ∧
    ((ingestRecords (fun (it : Item) _ => Except.ok (some it)) 0 []
        [scenarioItem "a1" "u1"]).filter
        (fun it => it.productUrl == "u1")).length ≤ 1 :=
  ⟨claim_C3.2.1 [scenarioItem "a1" "u1"] "u1" (by decide),
   claim_C3.2.2.1 [scenarioItem "a1" "u1"] "u1" (by decide),
   claim_C3.2.2.2.1 Item (fun it _ => Except.ok (some it))
     [scenarioItem "a1" "u1"] "u1" (by decide)⟩

/-- C4: dense re-ranking — in each adapter that renumbers (Musinsa, 29CM,
W Concept) the final renumbering step assigns the deduplicated list of
length N exactly the ranks 1, …, N in list order (`List.range' 1 N`: no
gaps, no repeats). -/
theorem claim_C4 :
    (∀ items : List Item, (renumberRanks items).map (·.rank) =
      List.range' 1 (renumberRanks items).length) ∧
    (∀ queries : List (List Item), (musinsaCombine queries).map (·.rank) =
      List.range' 1 (musinsaCombine queries).length) ∧
    (∀ (α : Type) (parse : α → Nat → Except String (Option Item))
        (pages : List (List α)),
      (twentynineCombine parse pages).map (·.rank) =
        List.range' 1 (twentynineCombine parse pages).length) ∧
    (∀ (α : Type) (parse : α → Nat → Except String (Option Item))
        (queries : List (List α)),
      (wconceptCombine parse queries).map (·.rank) =
        List.range' 1 (wconceptCombine parse queries).length) := by
  refine ⟨renumberRanks_map_rank, ?_, ?_, ?_⟩ <;>
    intros <;> apply renumberRanks_map_rank

/-- Zigzag raw record with price 8000, original (max) price 10000 and no
provided discount. -/
def zigzagBackfillRaw : ZigzagRaw :=
  { title := "A", finalPrice := some 8000, maxPrice := some 10000,
    discountRate := none, productUrl := "u", webpImageUrl := "",
    imageUrl := "", shopName := "S", managedCategoryList := [] }

/-- Ably goods with sale price 8000, original price 10000 and no provided
discount. -/
def ablyBackfillGoods : AblyGoods :=
  { sno := "11", name := "A",
    price := AblyPriceField.nested (some 8000) (some 10000),
    fpr := { price := none, originalPrice := none, discountRate := none,
             marketName := "", coverImage := "" },
    discountRate := none, marketName := "M", image := "", categoryName := "" }

/-- W Concept entry with final price 8000, customer price 10000 and no
provided discount rate. -/
def wconceptNoRateEntry : WEntry :=
  { itemName := "A", brandNameEn := "B", brandNameKr := "",
    finalPrice := some 8000, customerPrice := some 10000,
    finalDiscountRate := none, itemCd := "X1", productImageUrl := "",
    categoryDepthName1 := "", categoryDepthName2 := "",
    categoryDepthName3 := "" }

/-- Sale info of the 29CM no-rate entry: consumer price 10000, total sell
price 8000, no rate fields. -/
def twentynineNoRateSaleInfo : TSaleInfo :=
  { consumerPrice := some 10000, totalSellPrice := some 8000,
    sellPrice := none, totalSaleRate := none, saleRate := none }

/-- 29CM entry with sell price 8000, consumer price 10000 and no provided
sale rate. -/
def twentynineNoRateEntry : TEntry :=
  { itemName := "A", frontBrandNameKor := "", frontBrandNameEng := "B",
    saleInfoV2 := some twentynineNoRateSaleInfo,
    consumerPrice := none, lastSalePrice := none, lastSalePercent := none,
    itemNo := some 7, imageUrl := "", frontCategoryInfo := [] }

/-- Info dict of the Musinsa no-ratio entry: final price 8000, ratio 0. -/
def musinsaNoRatioInfo : MInfo :=
  { productName := "A", brandName := "B", finalPrice := some 8000,
    discountRatio := 0 }

/-- Musinsa entry with final price 8000 and no discount ratio. -/
def musinsaNoRatioEntry : MEntry :=
  { info := some musinsaNoRatioInfo, onClickUrl := "", id := "g1",
    imageUrl := "" }

/-- C5 counterexample: the claim asserts the price-based discount back-fill
is common to ALL five adapters, but `WConceptScraper._parse_product` has no
back-fill: on a record with price 8000, original price 10000 and no
provided discount it yields NO discount, not the claimed
`round((1 - 8000/10000) * 100) = 20`. -/
theorem claim_C5_counterexample :
    (wconcept_parse_product wconceptNoRateEntry 1).map Item.discountPct =
      some none ∧
    (some (none : Option Int) : Option (Option Int)) ≠ some (some 20) := by
  exact ⟨rfl, by decide⟩

/-- C5 (amended): the discount back-fill
`round((1 - price/original_price) * 100)` on records with both prices
present and no provided discount is implemented by the Zigzag and Ably
adapters (price 8000 / original 10000 yields discount 20 there), but NOT by
the W Concept, 29CM and Musinsa adapters: W Concept (for any entry) and
29CM leave the discount absent whenever the platform-provided rate is
absent, and Musinsa (which derives original price FROM the provided ratio)
leaves both the discount and the original price absent when the ratio is
absent. -/
theorem claim_C5 :
    zigzag_parse_item zigzagBackfillRaw 1 =
      some { rank := 1, productName := "A", brand := "S", price := some 8000,
             originalPrice := some 10000, discountPct := some 20,
             category := "", productUrl := "u", imageUrl := "" } ∧
    ablyParseApiResponses "https://m.a-bly.com" [[ablyBackfillGoods]] =
      [{ rank := 1, productName := "A", brand := "M", price := some 8000,
         originalPrice := some 10000, discountPct := some 20, category := "",
         productUrl := "https://m.a-bly.com/goods/11", imageUrl := "" }] ∧
    (∀ (entry : WEntry) (rank : Nat) (it : Item),
      wconcept_parse_product entry rank = some it →
      pyTruthyInt entry.finalDiscountRate = false → it.discountPct = none) ∧
    (twentynine_parse_product twentynineNoRateEntry 1).map Item.discountPct =
      some none ∧
    (musinsa_parse_product musinsaNoRatioEntry 1).map
        (Option.map Item.discountPct) = Except.ok (some none) ∧
    (musinsa_parse_product musinsaNoRatioEntry 1).map
        (Option.map Item.originalPrice) = Except.ok (some none) := by
  refine ⟨?_, ?_, ?_, by rfl, by rfl, by rfl⟩
  case _ =>
    norm_num [zigzag_parse_item, zigzagBackfillRaw, pyTruthyInt, pyRound,
      pyStrip, pyOrStr, zigzagPickCategory, Option.getD]
    decide
  case _ =>
    norm_num [ablyParseApiResponses, ablyParseApiAux, ablyBackfillGoods,
      ablySaleOrigin, pyTruthyInt, pyOrInt, pyOrStr, pyRound, pyStrip,
      Option.getD, List.flatten]
    decide
  intro entry rank it hparse htruthy
  unfold wconcept_parse_product at hparse
  by_cases hname : entry.itemName = ""
  · rw [if_pos hname] at hparse
    exact absurd hparse (by simp)
  · rw [if_neg hname] at hparse
    have h := Option.some.inj hparse
    subst h
    simp [htruthy]

/-- Witness for C5: the no-back-fill conjunct applied to the concrete
W Concept 8000/10000 entry. -/
theorem claim_C5_witness :
    ({ rank := 1, productName := "A", brand := "B", price := some 8000,
       originalPrice := some 10000, discountPct := none, category := "",
       productUrl := "https://www.wconcept.co.kr/Product/X1",
       imageUrl := "" } : Item).discountPct = none :=
  claim_C5.2.2.1 wconceptNoRateEntry 1
    { rank := 1, productName := "A", brand := "B", price := some 8000,
      originalPrice := some 10000, discountPct := none, category := "",
      productUrl := "https://www.wconcept.co.kr/Product/X1", imageUrl := "" }
    (by rfl) (by rfl)

/-- C6: per-record failure isolation — in the shared record loops, a raw
record whose parse raises contributes nothing, while every record before
and after it in the same response is still processed exactly as it would
have been (the rank counter still advances past the failing record): for
the Musinsa/Zigzag-shaped loop the output splits around the failing record,
and for the 29CM/W Concept ingest loop the failing head record is skipped
with the loop state (rank, seen) advanced only by the rank increment. -/
theorem claim_C6 :
    (∀ (α : Type) (parse : α → Nat → Except String (Option Item))
        (rank0 : Nat) (xs ys : List α) (bad : α) (msg : String),
      parse bad (rank0 + xs.length + 1) = Except.error msg →
      parseRecords parse rank0 (xs ++ bad :: ys) =
        parseRecords parse rank0 xs ++
          parseRecords parse (rank0 + xs.length + 1) ys) ∧
    (∀ (α : Type) (parse : α → Nat → Except String (Option Item))
        (rank : Nat) (seen : List String) (bad : α) (ys : List α)
        (msg : String),
      parse bad (rank + 1) = Except.error msg →
      ingestRecords parse rank seen (bad :: ys) =
        ingestRecords parse (rank + 1) seen ys) := by
  constructor
  · intro α parse rank0 xs ys bad msg hbad
    rw [parseRecords_append]
    congr 1
    show parseRecords parse (rank0 + xs.length) (bad :: ys) = _
    simp only [parseRecords, hbad]
  · intro α parse rank seen bad ys msg hbad
    simp only [ingestRecords, hbad]

/-- Parse function for the C6 witness: record 0 raises, every other record
parses to a fixed item. -/
def parseProbe : Nat → Nat → Except String (Option Item) :=
  fun r _ => if r = 0 then Except.error "boom"
             else Except.ok (some (scenarioItem "p" "u"))

/-- Witness for C6: with record `0` raising between records `1` and `2`,
the loop output is exactly the two sibling records' output. -/
theorem claim_C6_witness :
    parseRecords parseProbe 0 ([1] ++ 0 :: [2]) =
      parseRecords parseProbe 0 [1] ++ parseRecords parseProbe 2 [2] ∧
    ingestRecords parseProbe 0 [] (0 :: [2]) =
      ingestRecords parseProbe 1 [] [2] :=
  ⟨claim_C6.1 Nat parseProbe 0 [1] [2] 0 "boom" rfl,
   claim_C6.2 Nat parseProbe 0 [] 0 [2] "boom" rfl⟩

/-- C7: `normalize_category` maps blank input to the catch-all bucket
`"기타"`; on non-blank input it splits on the separator characters (`>`
normalized to `/`), tests the stripped segments from last (most specific)
to first for exact membership in the static table (`exactPass` decides the
result whenever it hits), otherwise falls back to the substring-containment
pass and finally to the catch-all default; it is a pure function of its
input and the static table, hence deterministic (equal inputs give equal
buckets). The spec's example `"의류 > 아우터 > 자켓"` lands in `"아우터"`. -/
theorem claim_C7 :
    normalize_category "" = "기타" ∧
    normalize_category "의류 > 아우터 > 자켓" = "아우터" ∧
    (∀ s t : String, s = t → normalize_category s = normalize_category t) ∧
    (∀ raw b : String, pyStrip raw ≠ "" →
      exactPass (segmentsOf raw) = some b → normalize_category raw = b) ∧
    (∀ raw : String, pyStrip raw ≠ "" → exactPass (segmentsOf raw) = none →
      normalize_category raw = (containPass (segmentsOf raw)).getD "기타") := by
  refine ⟨rfl, by decide, ?_, ?_, ?_⟩
  · intro s t h; rw [h]
  · intro raw b h1 h2
    have hcond : ¬(raw = "" ∨ pyStrip raw = "") := by
      rintro (h | h)
      · subst h; exact h1 rfl
      · exact h1 h
    simp only [normalize_category, if_neg hcond, h2]
  · intro raw h1 h2
    have hcond : ¬(raw = "" ∨ pyStrip raw = "") := by
      rintro (h | h)
      · subst h; exact h1 rfl
      · exact h1 h
    simp only [normalize_category, if_neg hcond, h2]
    cases h : containPass (segmentsOf raw) <;> simp [h]

/-- Witness for C7: the exact-pass and containment-pass conjuncts applied
to concrete non-blank inputs, and determinism at a concrete input. -/
theorem claim_C7_witness :
    normalize_category "아우터" = "아우터" ∧
    normalize_category "의류" = (containPass (segmentsOf "의류")).getD "기타" ∧
    normalize_category "x" = normalize_category "x" :=
  ⟨claim_C7.2.2.2.1 "아우터" "아우터" (by decide) (by decide),
   claim_C7.2.2.2.2 "의류" (by decide) (by decide),
   claim_C7.2.2.1 "x" "x" rfl⟩

/-- C8: run-log uniqueness — every adapter invocation appends exactly one
`scrape_log` row: a `success` row carrying the item count, empty error and
the duration when `scrape()` returns, or a `failed` row carrying the
exception message and duration when it raises; the row count grows by
exactly one per invocation, and a whole pipeline run only ever appends
(every pre-existing row survives unchanged as a prefix — nothing is
mutated). -/
theorem claim_C8 :
    (∀ (db : List LogRow) (p : String) (n : Nat) (d : ℚ),
      (scraperRun db p (Except.ok n) d).1 =
        db ++ [⟨p, "success", n, "", d⟩]) ∧
    (∀ (db : List LogRow) (p e : String) (d : ℚ),
      (scraperRun db p (Except.error e) d).1 =
        db ++ [⟨p, "failed", 0, e, d⟩]) ∧
    (∀ (db : List LogRow) (p : String) (o : Except String Nat) (d : ℚ),
      ((scraperRun db p o d).1).length = db.length + 1) ∧
    (∀ (db : List LogRow) (invs : List (String × Except String Nat × ℚ)),
      List.IsPrefix db (runAllLog db invs)) ∧
    (∀ (db : List LogRow) (invs : List (String × Except String Nat × ℚ)),
      (runAllLog db invs).length = db.length + invs.length) := by
  have hstep : ∀ (db : List LogRow) (p : String) (o : Except String Nat)
      (d : ℚ), ∃ row, (scraperRun db p o d).1 = db ++ [row] := by
    intro db p o d
    cases o with
    | ok n => exact ⟨_, rfl⟩
    | error e => exact ⟨_, rfl⟩
  refine ⟨fun db p n d => rfl, fun db p e d => rfl, ?_, ?_, ?_⟩
  · intro db p o d
    obtain ⟨row, hrow⟩ := hstep db p o d
    simp [hrow]
  · intro db invs
    induction invs generalizing db with
    | nil => exact ⟨[], by simp [runAllLog]⟩
    | cons inv rest ih =>
      obtain ⟨row, hrow⟩ := hstep db inv.1 inv.2.1 inv.2.2
      have h2 : List.IsPrefix db (scraperRun db inv.1 inv.2.1 inv.2.2).1 :=
        ⟨[row], hrow.symm⟩
      exact h2.trans (ih _)
  · intro db invs
    induction invs generalizing db with
    | nil => rfl
    | cons inv rest ih =>
      obtain ⟨row, hrow⟩ := hstep db inv.1 inv.2.1 inv.2.2
      have h1 : runAllLog db (inv :: rest) =
          runAllLog (scraperRun db inv.1 inv.2.1 inv.2.2).1 rest := rfl
      rw [h1, ih, hrow]
      simp
      omega

/-- C9: auth-acquisition failure yields empty, not an exception — when
Playwright cannot even be imported both Ably collection functions return
`[]`, and when the browser capture yields nothing (no captured API payloads
and an empty DOM parse) they likewise return `[]`; the bestseller and
keyword components of `AblyScraper.scrape` are computed from disjoint
inputs, so the keyword result never depends on the bestseller inputs (and
vice versa), and an empty bestseller collection still leaves the keyword
collection exactly as if run alone. -/
theorem claim_C9 :
    (∀ (baseUrl : String) (captures : List (List AblyGoods))
        (domItems : List Item),
      ablyCollectViaPlaywright baseUrl false captures domItems = []) ∧
    (∀ (captures : List (List AblyKwRaw)) (domKeywords : List Keyword),
      ablyCollectKeywords false captures domKeywords = []) ∧
    (∀ baseUrl : String, ablyCollectViaPlaywright baseUrl true [] [] = []) ∧
    ablyCollectKeywords true [] [] = [] ∧
    (∀ (baseUrl : String) (avail : Bool) (bc1 bc2 : List (List AblyGoods))
        (bd1 bd2 : List Item) (kc : List (List AblyKwRaw)) (kd : List Keyword),
      (ablyScrape baseUrl avail bc1 bd1 kc kd).2.2 =
        (ablyScrape baseUrl avail bc2 bd2 kc kd).2.2) ∧
    (∀ (baseUrl : String) (avail : Bool) (bc : List (List AblyGoods))
        (bd : List Item) (kc1 kc2 : List (List AblyKwRaw))
        (kd1 kd2 : List Keyword),
      (ablyScrape baseUrl avail bc bd kc1 kd1).2.1 =
        (ablyScrape baseUrl avail bc bd kc2 kd2).2.1) ∧
    (∀ (baseUrl : String) (kc : List (List AblyKwRaw)) (kd : List Keyword),
      (ablyScrape baseUrl true [] [] kc kd).2.2 =
        ablyCollectKeywords true kc kd) := by
  refine ⟨fun _ _ _ => rfl, fun _ _ => rfl, fun _ => rfl, rfl,
    fun _ _ _ _ _ _ _ _ => rfl, fun _ _ _ _ _ _ _ _ => rfl,
    fun _ _ _ => rfl⟩

/-- C10: the 29CM / W Concept ingest loop never emits a record with an
empty product URL (for any parse function and any loop state), while the
Musinsa dedup loop retains every successfully parsed empty-URL record
(the empty-URL records of its output are exactly those of its input). -/
theorem claim_C10 :
    (∀ (α : Type) (parse : α → Nat → Except String (Option Item))
        (rank : Nat) (seen : List String) (rs : List α),
      (ingestRecords parse rank seen rs).filter
        (fun it => it.productUrl == "") = []) ∧
    (∀ (seen : List String) (items : List Item),
      (musinsaDedupAux seen items).filter (fun it => it.productUrl == "") =
        items.filter (fun it => it.productUrl == "")) :=
  ⟨fun _ parse rank seen rs => ingestRecords_no_empty_url parse rs rank seen,
   fun seen items => musinsaDedupAux_keeps_empty items seen⟩
